import Mathlib

/-! simple-iap-proxy: the GKE reverse proxy (`gke_server/main.go`)

A shallow embedding of `ReverseProxy.retrieveClusterInfo`, `ReverseProxy.ServeHTTP`
and `ReverseProxy.Run`, together with the parts of the Go standard library whose
documented behaviour the handler relies on (`http.Header`, `http.ResponseWriter`,
`tls.Config`).  Everything the handler obtains from outside the file (the cluster
cache, `url.Parse`, the network round trip, the credential lookup, the listener)
is a field of an environment record, so every theorem holds for all behaviours of
those collaborators.
-/

namespace GkeServer

/-! ## `net/textproto`: canonical header keys -/

/-- The bytes accepted in a header field name (RFC 7230 token characters). -/
def validHeaderFieldByte (c : Char) : Bool :=
  c.isAlphanum ||
    [Char.ofNat 33, Char.ofNat 35, Char.ofNat 36, Char.ofNat 37, Char.ofNat 38,
     Char.ofNat 39, Char.ofNat 42, Char.ofNat 43, Char.ofNat 45, Char.ofNat 46,
     Char.ofNat 94, Char.ofNat 95, Char.ofNat 96, Char.ofNat 124, Char.ofNat 126].contains c

/-- The rewriting loop of `canonicalMIMEHeaderKey`: upper case for the first letter and
for each letter after a dash, lower case elsewhere. -/
def canonicalizeChars : Bool → List Char → List Char
  | _, [] => []
  | upper, c :: cs =>
    let c1 := if upper && c.isLower then c.toUpper
              else if !upper && c.isUpper then c.toLower else c
    c1 :: canonicalizeChars (c1 == Char.ofNat 45) cs

/-- The function `textproto.CanonicalMIMEHeaderKey`: a key holding a byte that is not a
token character is returned unchanged, any other key is put in canonical case. -/
def CanonicalMIMEHeaderKey (s : String) : String :=
  if s.data.all validHeaderFieldByte then String.mk (canonicalizeChars true s.data) else s

/-! ## `net/http`: the `Header` map -/

/-- The Go type `http.Header`, a `map[string][]string`.  The map is kept as the list of
its entries; the position of an entry in the list carries no meaning for the map
operations below, which only ever look at the first entry of a key. -/
structure Header where
  entries : List (String × List String)
deriving DecidableEq, Repr

/-- Replace the value stored under `key`, or add the entry when the key is absent. -/
def storeEntry : List (String × List String) → String → List String → List (String × List String)
  | [], key, vs => [(key, vs)]
  | (k, old) :: rest, key, vs =>
    if k = key then (key, vs) :: rest else (k, old) :: storeEntry rest key vs

namespace Header

/-- The empty map, as made by `make(http.Header)`. -/
def empty : Header := ⟨[]⟩

/-- The map read `h[key]`, with `none` for an absent key. -/
def lookup (h : Header) (key : String) : Option (List String) :=
  h.entries.lookup key

/-- The map read `h[key]` as a slice: an absent key reads as the nil (empty) slice. -/
def index (h : Header) (key : String) : List String :=
  (h.lookup key).getD []

/-- The map write `h[key] = vs`. -/
def store (h : Header) (key : String) (vs : List String) : Header :=
  ⟨storeEntry h.entries key vs⟩

/-- The builtin `delete(h, key)`. -/
def delete (h : Header) (key : String) : Header :=
  ⟨h.entries.filter (fun e => !(e.1 == key))⟩

/-- The method `Header.Values`: `h[CanonicalMIMEHeaderKey(key)]`. -/
def Values (h : Header) (key : String) : List String :=
  h.index (CanonicalMIMEHeaderKey key)

/-- The method `Header.Del`: `delete(h, CanonicalMIMEHeaderKey(key))`. -/
def Del (h : Header) (key : String) : Header :=
  h.delete (CanonicalMIMEHeaderKey key)

/-- The method `Header.Add`: `h[key] = append(h[key], value)` at the canonical key. -/
def Add (h : Header) (key value : String) : Header :=
  h.store (CanonicalMIMEHeaderKey key) (h.index (CanonicalMIMEHeaderKey key) ++ [value])

/-- The (key, value) pairs of a header, each key followed by its values in order. -/
def pairs (h : Header) : List (String × String) :=
  h.entries.flatMap (fun e => e.2.map (fun v => (e.1, v)))

end Header

/-! ## `net/http`: the response writer and the recorder -/

/-- The observable state of an `http.ResponseWriter`: the header map returned by
`Header()`, the status line once written, and the bytes of the body. -/
structure ResponseWriter where
  header : Header
  wroteHeader : Bool
  status : Int
  body : String
deriving DecidableEq, Repr

namespace ResponseWriter

/-- The writer handed to a handler at the start of a request: nothing written yet. -/
def fresh : ResponseWriter := ⟨Header.empty, false, 0, ""⟩

/-- The method `WriteHeader`: the first call fixes the status code, later calls are ignored. -/
def WriteHeader (w : ResponseWriter) (code : Int) : ResponseWriter :=
  if w.wroteHeader then w else { w with wroteHeader := true, status := code }

/-- The method `Write`: an implicit `WriteHeader(200)` when no status was written, then the
bytes are appended to the body. -/
def Write (w : ResponseWriter) (b : String) : ResponseWriter :=
  let w1 := w.WriteHeader 200
  { w1 with body := w1.body ++ b }

end ResponseWriter

/-- The fields of an `httptest.ResponseRecorder` that the handler reads back:
`rec.Code`, `rec.Header()` and `rec.Body`. -/
structure ResponseRecorder where
  Code : Int
  HeaderMap : Header
  Body : String
deriving DecidableEq, Repr

/-! ## The data of a request -/

/-- The parts of an `http.Request` the handler touches, and the payload it passes on. -/
structure Request where
  Method : String
  Host : String
  RequestURI : String
  Header : Header
  Body : String
deriving DecidableEq, Repr

/-- A pool of root certificates (`x509.CertPool`), as the list of its certificates. -/
structure CertPool where
  certs : List String
deriving DecidableEq, Repr

/-- The type `clusterinfo.ConnectInfo`, of which the handler reads only `RootCAs`,
a `*x509.CertPool` that may be nil. -/
structure ConnectInfo where
  RootCAs : Option CertPool
deriving DecidableEq, Repr

/-- A handle on a `clusterinfo.Cache`. -/
structure Cache where
  id : Nat
deriving DecidableEq, Repr

/-- A parsed `url.URL`. -/
structure URL where
  Scheme : String
  Host : String
deriving DecidableEq, Repr

/-- The fields of `tls.Config` that decide which server certificates are accepted.
Fields left out of a composite literal take their zero value. -/
structure TLSConfig where
  RootCAs : Option CertPool
  InsecureSkipVerify : Bool := false
deriving DecidableEq, Repr

/-- The documented meaning of `tls.Config.RootCAs` for a client: with
`InsecureSkipVerify` no chain is verified (`none`); otherwise the chain is verified
against `RootCAs`, and "if RootCAs is nil, TLS uses the host's root CA set". -/
def TLSConfig.verificationRoots (c : TLSConfig) (hostRoots : CertPool) : Option CertPool :=
  if c.InsecureSkipVerify then none
  else match c.RootCAs with
    | none => some hostRoots
    | some pool => some pool

/-- The type `http.Transport`, of which the handler sets only `TLSClientConfig`. -/
structure Transport where
  TLSClientConfig : TLSConfig
deriving DecidableEq, Repr

/-- The value `httputil.ReverseProxy` built for one request: its target and transport. -/
structure SingleHostReverseProxy where
  target : URL
  Transport : Transport
deriving DecidableEq, Repr

/-- The type `ReverseProxy` of `main.go`: the runtime configuration of the proxy. -/
structure ReverseProxy where
  Debug : Bool
  Port : Int
  ProjectID : String
  KeyFile : String
  CertificateFile : String
  clusterInfoCache : Option Cache
deriving DecidableEq, Repr

/-- The collaborators of `ServeHTTP`. -/
structure Env where
  /-- The method `(*clusterinfo.Cache).GetConnectInfoForEndpoint`; `none` is the nil result. -/
  GetConnectInfoForEndpoint : Option Cache → String → Option ConnectInfo
  /-- The function `url.Parse`: an error, or the parsed URL (the URL is nil on error). -/
  urlParse : String → Except String URL
  /-- The effect of `proxy.ServeHTTP(rec, r)` on a new recorder: the recorded response. -/
  proxyServeHTTP : SingleHostReverseProxy → Request → ResponseRecorder
  /-- The order in which a `range` over a header map visits its entries. -/
  mapRange : Header → List (String × List String)
  /-- The function `httputil.DumpRequest(r, true)`. -/
  DumpRequest : Request → Except String String
  /-- The function `httputil.DumpResponse(rec.Result(), true)`. -/
  DumpResponse : ResponseRecorder → Except String String
  /-- The `%q` rendering of a byte slice. -/
  quote : String → String
  /-- The error, if any, of `rec.Body.WriteTo(w)`. -/
  bodyWriteError : ResponseWriter → String → Option String

/-- What one call of `ServeHTTP` did. -/
structure Outcome where
  /-- The response writer when the handler ends. -/
  w : ResponseWriter
  /-- The argument of each call of `httputil.NewSingleHostReverseProxy` (`none` is nil). -/
  newProxyCalls : List (Option URL)
  /-- The reverse proxy with the transport set on it, once built. -/
  proxy : Option SingleHostReverseProxy
  /-- The request handed to `proxy.ServeHTTP`, once for each backend round trip. -/
  forwarded : List Request
  /-- The lines written with the `log` package. -/
  logs : List String
  /-- The handler ended in a run-time panic (a nil pointer dereference). -/
  panicked : Bool

/-- The `%s` rendering of an `error` value that may be nil. -/
def errorText : Option String → String
  | none => "%!s(<nil>)"
  | some e => e

/-- Lines 67 to 72 of `main.go`: the promotion of `X-Real-Authorization`. -/
def rewriteAuthorization (h : Header) : Header :=
  let realAuthHeaders := h.Values "X-Real-Authorization"
  if realAuthHeaders.length > 0 then
    let h1 := h.Del "Authorization"
    (h1.Values "X-Real-Authorization").foldl (fun acc v => acc.Add "Authorization" v) h1
  else h

/-- Lines 95 to 99 of `main.go`: every value of every visited entry is added to the
client header. -/
def copyHeader (dst : Header) (visit : List (String × List String)) : Header :=
  visit.foldl (fun acc e => e.2.foldl (fun acc1 value => acc1.Add e.1 value) acc) dst

/-- Lines 74 to 81 and 86 to 93 of `main.go`: the debug dump of a request or response. -/
def debugDump (debug : Bool) (quote : String → String) (dump : Except String String) :
    List String :=
  if debug then
    match dump with
    | .error err => ["failed to dump the response body, " ++ err]
    | .ok x => [quote x]
  else []

/-- Lines 59 to 64 of `main.go`: the reverse proxy for the target, with a transport whose
TLS client configuration sets `RootCAs` and nothing else. -/
def newProxy (target : URL) (clusterInfo : ConnectInfo) : SingleHostReverseProxy :=
  { target := target, Transport := { TLSClientConfig := { RootCAs := clusterInfo.RootCAs } } }

/-- The request after lines 67 to 72: the inbound request with its header rewritten. -/
def forwardedRequest (r : Request) : Request :=
  { r with Header := rewriteAuthorization r.Header }

/-- Lines 83 and 84 of `main.go`: the response recorded from the backend round trip. -/
def recorded (env : Env) (r : Request) (target : URL) (clusterInfo : ConnectInfo) :
    ResponseRecorder :=
  env.proxyServeHTTP (newProxy target clusterInfo) (forwardedRequest r)

/-- The method `ReverseProxy.ServeHTTP` of `main.go`. -/
def ServeHTTP (env : Env) (p : ReverseProxy) (w : ResponseWriter) (r : Request) : Outcome :=
  let clusterInfo := env.GetConnectInfoForEndpoint p.clusterInfoCache r.Host
  if clusterInfo.isNone then
    let w1 := w.WriteHeader 502
    let w2 := w1.Write (r.Host ++ " is not a cluster endpoint")
    { w := w2, newProxyCalls := [], proxy := none, forwarded := [], logs := [],
      panicked := false }
  else
    let parsed := env.urlParse ("https://" ++ r.Host)
    let targetURL : Option URL := parsed.toOption
    let err : Option String := match parsed with
      | .error e => some e
      | .ok _ => none
    -- line 54 tests `clusterInfo == nil`, not `err != nil`
    if clusterInfo.isNone then
      let w1 := w.WriteHeader 500
      let w2 := w1.Write ("failed to parse URL https://" ++ r.Host ++ ", " ++ errorText err)
      { w := w2, newProxyCalls := [], proxy := none, forwarded := [], logs := [],
        panicked := false }
    else
      match targetURL, clusterInfo with
      | none, _ =>
        -- `NewSingleHostReverseProxy(nil)` dereferences its argument
        { w := w, newProxyCalls := [none], proxy := none, forwarded := [], logs := [],
          panicked := true }
      | some _, none =>
        -- `clusterInfo.RootCAs` on a nil pointer
        { w := w, newProxyCalls := [targetURL], proxy := none, forwarded := [], logs := [],
          panicked := true }
      | some target, some info =>
        let proxy := newProxy target info
        let r1 := forwardedRequest r
        let logs1 := debugDump p.Debug env.quote (env.DumpRequest r1)
        let rec1 := env.proxyServeHTTP proxy r1
        let logs2 := debugDump p.Debug env.quote (env.DumpResponse rec1)
        let w1 : ResponseWriter :=
          { w with header := copyHeader w.header (env.mapRange rec1.HeaderMap) }
        let w2 := w1.WriteHeader rec1.Code
        let w3 := w2.Write rec1.Body
        let logs3 := match env.bodyWriteError w2 rec1.Body with
          | some e => ["error writing body, " ++ e]
          | none => []
        { w := w3, newProxyCalls := [targetURL], proxy := some proxy, forwarded := [r1],
          logs := logs1 ++ logs2 ++ logs3, panicked := false }

/-! ## Start-up: `retrieveClusterInfo` and `Run` -/

/-- The field of `google.Credentials` read by `retrieveClusterInfo`. -/
structure Credentials where
  ProjectID : String
deriving DecidableEq, Repr

/-- The collaborators of `retrieveClusterInfo` and `Run`. -/
structure BootEnv where
  /-- The function `google.FindDefaultCredentials(ctx, scope)`. -/
  FindDefaultCredentials : String → Except String Credentials
  /-- The function `clusterinfo.NewCache(ctx, projectID, credentials, refresh)`, the refresh
  period in nanoseconds; it returns a cache pointer and an error, either of which may be nil. -/
  NewCache : String → Credentials → Nat → Option Cache × Option String
  /-- The error returned by `srv.ListenAndServeTLS(certFile, keyFile)` for the server
  listening on the given address. -/
  ListenAndServeTLS : String → String → String → Option String

/-- The OAuth scope requested at line 29. -/
def readOnlyScope : String := "https://www.googleapis.com/auth/cloud-platform.read-only"

/-- The duration `5*time.Minute`, in nanoseconds. -/
def refreshPeriod : Nat := 5 * (60 * 1000000000)

/-- The error made at line 37. -/
def missingProjectError : String := "specify a --project as there is no default one"

/-- What one call of `retrieveClusterInfo` did. -/
structure BootOutcome where
  /-- The receiver after the call. -/
  p : ReverseProxy
  /-- The returned `error`; `none` is nil. -/
  err : Option String
  /-- The arguments of each call of `clusterinfo.NewCache`. -/
  newCacheCalls : List (String × Credentials × Nat)
deriving DecidableEq, Repr

/-- The method `ReverseProxy.retrieveClusterInfo` of `main.go`. -/
def retrieveClusterInfo (env : BootEnv) (p : ReverseProxy) : BootOutcome :=
  match env.FindDefaultCredentials readOnlyScope with
  | .error err => { p := p, err := some err, newCacheCalls := [] }
  | .ok credentials =>
    let p1 : ReverseProxy :=
      if p.ProjectID = "" then { p with ProjectID := credentials.ProjectID } else p
    if p1.ProjectID = "" then
      { p := p1, err := some missingProjectError, newCacheCalls := [] }
    else
      let made := env.NewCache p1.ProjectID credentials refreshPeriod
      { p := { p1 with clusterInfoCache := made.1 }, err := made.2,
        newCacheCalls := [(p1.ProjectID, credentials, refreshPeriod)] }

/-- The steps of `Run` that reach outside the process. -/
inductive RunEvent where
  /-- The call `log.Fatalf`, which logs the message and exits the process. -/
  | fatal (msg : String)
  /-- The call `http.Handle(pattern, p)`. -/
  | handle (pattern : String)
  /-- The call `srv.ListenAndServeTLS(certFile, keyFile)` on a server for `addr`. -/
  | listenAndServeTLS (addr certFile keyFile : String)
deriving DecidableEq, Repr

/-- The method `ReverseProxy.Run` of `main.go`: the receiver at the end and the steps taken. -/
def Run (env : BootEnv) (p : ReverseProxy) : ReverseProxy × List RunEvent :=
  let boot := retrieveClusterInfo env p
  match boot.err with
  | some err => (boot.p, [RunEvent.fatal ("failed to retrieve cluster information, " ++ err)])
  | none =>
    let addr := ":" ++ toString boot.p.Port
    let served := [RunEvent.handle "/",
      RunEvent.listenAndServeTLS addr boot.p.CertificateFile boot.p.KeyFile]
    match env.ListenAndServeTLS addr boot.p.CertificateFile boot.p.KeyFile with
    | some err => (boot.p, served ++ [RunEvent.fatal ("failed to start server, " ++ err)])
    | none => (boot.p, served)

/-- The states of the server lifecycle. -/
inductive Lifecycle where
  | Uninitialized
  | CredentialsBootstrapped
  | Serving
  | Terminated
deriving DecidableEq, Repr

/-- The lifecycle state entered at a step of `Run`: registering the handler happens with
the cluster information in hand, the listener call is the serving state, and a fatal
log ends the process. -/
def RunEvent.state : RunEvent → Lifecycle
  | .fatal _ => Lifecycle.Terminated
  | .handle _ => Lifecycle.CredentialsBootstrapped
  | .listenAndServeTLS _ _ _ => Lifecycle.Serving

/-- The lifecycle states a run goes through, from `Uninitialized` on. -/
def lifecycle (env : BootEnv) (p : ReverseProxy) : List Lifecycle :=
  Lifecycle.Uninitialized :: (Run env p).2.map RunEvent.state

/-! ## Sample inputs -/

/-- A cluster cache that knows three endpoints: one with a root pool, one whose root pool
is nil, and one whose name is not a valid URL host. -/
def sampleConnectInfo (host : String) : Option ConnectInfo :=
  if host = "10.0.0.1" then some ⟨some ⟨["cluster-ca"]⟩⟩
  else if host = "10.0.0.2" then some ⟨none⟩
  else if host = "%zz" then some ⟨some ⟨["cluster-ca"]⟩⟩
  else none

/-- A URL parser that rejects the escape `%zz`, as `url.Parse` does. -/
def sampleParse (s : String) : Except String URL :=
  if s = "https://%zz" then Except.error "invalid URL escape"
  else Except.ok ⟨"https", String.mk (s.data.drop 8)⟩

/-- A backend that answers 404 with three header values under two keys. -/
def sampleRecorder : ResponseRecorder :=
  ⟨404, ⟨[("K", ["a", "b"]), ("J", ["c"])]⟩, "no such thing"⟩

/-- An environment for the sample inputs; its map iteration runs back to front. -/
def sampleEnv : Env where
  GetConnectInfoForEndpoint := fun _ host => sampleConnectInfo host
  urlParse := sampleParse
  proxyServeHTTP := fun _ _ => sampleRecorder
  mapRange := fun h => h.entries.reverse
  DumpRequest := fun r => Except.ok r.Body
  DumpResponse := fun rc => Except.ok rc.Body
  quote := fun x => x
  bodyWriteError := fun _ _ => none

/-- A proxy configuration with debug dumps on. -/
def sampleProxy : ReverseProxy :=
  ⟨true, 8443, "my-project", "server.key", "server.crt", some ⟨1⟩⟩

/-- A request to the given host with the given header. -/
def sampleRequest (host : String) (h : Header) : Request :=
  ⟨"GET", host, "/api/v1/pods", h, ""⟩

/-- A start-up environment in which everything succeeds until the listener stops. -/
def sampleBoot : BootEnv where
  FindDefaultCredentials := fun _ => Except.ok ⟨"credentials-project"⟩
  NewCache := fun _ _ _ => (some ⟨1⟩, none)
  ListenAndServeTLS := fun _ _ _ => some "listen tcp :8443: bind: address already in use"

/-- A start-up environment without ambient credentials. -/
def failingBoot : BootEnv where
  FindDefaultCredentials := fun _ => Except.error "could not find default credentials"
  NewCache := fun _ _ _ => (some ⟨1⟩, none)
  ListenAndServeTLS := fun _ _ _ => none

/-- A proxy configuration before start-up, without a configured project. -/
def unconfiguredProxy : ReverseProxy :=
  ⟨false, 8443, "", "server.key", "server.crt", none⟩

/-! ## Lemmas on the header map -/

theorem canonical_Authorization : CanonicalMIMEHeaderKey "Authorization" = "Authorization" := by
  decide

theorem canonical_XRealAuthorization :
    CanonicalMIMEHeaderKey "X-Real-Authorization" = "X-Real-Authorization" := by
  decide

theorem lookup_storeEntry_self (l : List (String × List String)) (key : String)
    (vs : List String) : (storeEntry l key vs).lookup key = some vs := by
  induction l with
  | nil => simp [storeEntry, List.lookup]
  | cons e rest ih =>
    obtain ⟨k, old⟩ := e
    by_cases hk : k = key
    · simp [storeEntry, hk, List.lookup]
    · have hb : (key == k) = false := by simpa using fun h => hk h.symm
      simp [storeEntry, hk, List.lookup, hb, ih]

theorem lookup_storeEntry_other (l : List (String × List String)) (key k1 : String)
    (vs : List String) (hne : k1 ≠ key) :
    (storeEntry l key vs).lookup k1 = l.lookup k1 := by
  induction l with
  | nil =>
    have hb : (k1 == key) = false := by simpa using hne
    simp [storeEntry, List.lookup, hb]
  | cons e rest ih =>
    obtain ⟨k, old⟩ := e
    by_cases hk : k = key
    · subst hk
      have hb : (k1 == k) = false := by simpa using hne
      simp [storeEntry, List.lookup, hb]
    · simp only [storeEntry, hk, if_false, List.lookup, ih]

theorem Header.lookup_delete_self (h : Header) (key : String) :
    (h.delete key).lookup key = none := by
  obtain ⟨l⟩ := h
  simp only [Header.delete, Header.lookup]
  induction l with
  | nil => simp
  | cons e rest ih =>
    obtain ⟨k, old⟩ := e
    by_cases hk : k = key
    · simp [List.filter, hk, ih]
    · have hb : (key == k) = false := by simpa using fun h => hk h.symm
      have hkb : (k == key) = false := by simpa using hk
      simp only [List.filter_cons, hkb, Bool.not_false, if_true, List.lookup_cons, hb]
      exact ih

theorem Header.lookup_delete_other (h : Header) (key k1 : String) (hne : k1 ≠ key) :
    (h.delete key).lookup k1 = h.lookup k1 := by
  obtain ⟨l⟩ := h
  simp only [Header.delete, Header.lookup]
  induction l with
  | nil => simp
  | cons e rest ih =>
    obtain ⟨k, old⟩ := e
    by_cases hk : k = key
    · subst hk
      have hb : (k1 == k) = false := by simpa using hne
      simp [List.filter, List.lookup, hb, ih]
    · have hkb : (k == key) = false := by simpa using hk
      simp only [List.filter_cons, hkb, Bool.not_false, if_true, List.lookup_cons, ih]

theorem Header.index_Add_self (h : Header) (key value : String) :
    (h.Add key value).index (CanonicalMIMEHeaderKey key) =
      h.index (CanonicalMIMEHeaderKey key) ++ [value] := by
  simp [Header.Add, Header.index, Header.lookup, Header.store, lookup_storeEntry_self]

theorem Header.lookup_Add_other (h : Header) (key value k1 : String)
    (hne : k1 ≠ CanonicalMIMEHeaderKey key) :
    (h.Add key value).lookup k1 = h.lookup k1 := by
  simp [Header.Add, Header.lookup, Header.store, lookup_storeEntry_other _ _ _ _ hne]

/-- Adding a list of values under one key appends them, in order, to the values of that key. -/
theorem Header.index_foldl_Add_self (vs : List String) (h : Header) (key : String) :
    (vs.foldl (fun acc v => acc.Add key v) h).index (CanonicalMIMEHeaderKey key) =
      h.index (CanonicalMIMEHeaderKey key) ++ vs := by
  induction vs generalizing h with
  | nil => simp
  | cons v rest ih => simp [List.foldl, ih, Header.index_Add_self]

/-- Adding a list of values under one key leaves every other key as it was. -/
theorem Header.lookup_foldl_Add_other (vs : List String) (h : Header) (key k1 : String)
    (hne : k1 ≠ CanonicalMIMEHeaderKey key) :
    (vs.foldl (fun acc v => acc.Add key v) h).lookup k1 = h.lookup k1 := by
  induction vs generalizing h with
  | nil => simp
  | cons v rest ih => simp [List.foldl, ih, Header.lookup_Add_other _ _ _ _ hne]

/-- The header rewrite when `X-Real-Authorization` is present. -/
theorem rewriteAuthorization_present (h : Header)
    (hx : h.Values "X-Real-Authorization" ≠ []) :
    rewriteAuthorization h =
      (h.Values "X-Real-Authorization").foldl (fun acc v => acc.Add "Authorization" v)
        (h.Del "Authorization") := by
  have hlen : (h.Values "X-Real-Authorization").length > 0 := List.length_pos.mpr hx
  have hsame : (h.Del "Authorization").Values "X-Real-Authorization" =
      h.Values "X-Real-Authorization" := by
    simp only [Header.Values, Header.Del, Header.index, canonical_Authorization,
      canonical_XRealAuthorization]
    rw [Header.lookup_delete_other _ _ _ (by decide)]
  simp only [rewriteAuthorization, hlen, if_true, hsame]

/-- The header rewrite when `X-Real-Authorization` is absent. -/
theorem rewriteAuthorization_absent (h : Header)
    (hx : h.Values "X-Real-Authorization" = []) : rewriteAuthorization h = h := by
  simp [rewriteAuthorization, hx]

theorem rewriteAuthorization_Values (h : Header)
    (hx : h.Values "X-Real-Authorization" ≠ []) :
    (rewriteAuthorization h).Values "Authorization" = h.Values "X-Real-Authorization" := by
  rw [rewriteAuthorization_present h hx]
  simp only [Header.Values]
  rw [Header.index_foldl_Add_self]
  simp [Header.index, Header.Del, Header.lookup_delete_self, canonical_XRealAuthorization]

theorem rewriteAuthorization_lookup_other (h : Header) (k : String)
    (hk : k ≠ "Authorization") :
    (rewriteAuthorization h).lookup k = h.lookup k := by
  by_cases hx : h.Values "X-Real-Authorization" = []
  · rw [rewriteAuthorization_absent h hx]
  · rw [rewriteAuthorization_present h hx,
      Header.lookup_foldl_Add_other _ _ _ _ (by rw [canonical_Authorization]; exact hk)]
    simp only [Header.Del, canonical_Authorization]
    exact Header.lookup_delete_other _ _ _ hk

/-! ## Lemmas on the header copy of the relay -/

theorem lookup_eq_none_of_not_mem_keys (l : List (String × List String)) (k : String)
    (hk : k ∉ l.map Prod.fst) : l.lookup k = none := by
  induction l with
  | nil => rfl
  | cons e rest ih =>
    obtain ⟨k0, vs0⟩ := e
    simp only [List.map_cons, List.mem_cons, not_or] at hk
    have hb : (k == k0) = false := by simpa using hk.1
    simp only [List.lookup_cons, hb]
    exact ih hk.2

theorem lookup_eq_some_iff_mem (l : List (String × List String))
    (hnd : (l.map Prod.fst).Nodup) (k : String) (vs : List String) :
    l.lookup k = some vs ↔ (k, vs) ∈ l := by
  induction l with
  | nil => simp
  | cons e rest ih =>
    obtain ⟨k0, vs0⟩ := e
    simp only [List.map_cons, List.nodup_cons] at hnd
    by_cases hk : k = k0
    · subst hk
      have hnot : (k, vs) ∉ rest := fun hmem => hnd.1 (List.mem_map_of_mem Prod.fst hmem)
      simp [List.lookup_cons, hnot]
      exact eq_comm
    · have hb : (k == k0) = false := by simpa using hk
      simp only [List.lookup_cons, hb, List.mem_cons, Prod.mk.injEq, hk, false_and, false_or]
      exact ih hnd.2

/-- A map read does not depend on the order in which the entries are listed. -/
theorem lookup_perm (l1 l2 : List (String × List String)) (hperm : l1.Perm l2)
    (hnd : (l2.map Prod.fst).Nodup) (k : String) : l1.lookup k = l2.lookup k := by
  have hnd1 : (l1.map Prod.fst).Nodup := (hperm.map Prod.fst).nodup_iff.mpr hnd
  apply Option.ext
  intro vs
  rw [Option.mem_def, Option.mem_def, lookup_eq_some_iff_mem l1 hnd1,
    lookup_eq_some_iff_mem l2 hnd]
  exact hperm.mem_iff

/-- The copy loop, read key by key: the values of a visited entry are appended, in order,
to the values the destination already holds under that key. -/
theorem index_copyHeader (visit : List (String × List String))
    (hnd : (visit.map Prod.fst).Nodup)
    (hcanon : ∀ e ∈ visit, CanonicalMIMEHeaderKey e.1 = e.1) (dst : Header) (k : String) :
    (copyHeader dst visit).index k = dst.index k ++ (Header.mk visit).index k := by
  induction visit generalizing dst with
  | nil => simp [copyHeader, Header.index, Header.lookup]
  | cons e rest ih =>
    obtain ⟨k0, vs0⟩ := e
    simp only [List.map_cons, List.nodup_cons] at hnd
    have hc0 : CanonicalMIMEHeaderKey k0 = k0 := hcanon (k0, vs0) (List.mem_cons_self _ _)
    have hrest : ∀ e ∈ rest, CanonicalMIMEHeaderKey e.1 = e.1 :=
      fun e he => hcanon e (List.mem_cons_of_mem _ he)
    have hstep : copyHeader dst ((k0, vs0) :: rest) =
        copyHeader (vs0.foldl (fun acc v => acc.Add k0 v) dst) rest := by
      simp [copyHeader]
    rw [hstep, ih hnd.2 hrest]
    by_cases hk : k = k0
    · subst hk
      have h1 := Header.index_foldl_Add_self vs0 dst k
      rw [hc0] at h1
      rw [h1]
      simp [Header.index, Header.lookup, lookup_eq_none_of_not_mem_keys rest k hnd.1]
    · have h1 := Header.lookup_foldl_Add_other vs0 dst k0 k (by rw [hc0]; exact hk)
      have hb : (k == k0) = false := by simpa using hk
      simp only [Header.index, h1]
      simp [Header.lookup, List.lookup_cons, hb]

theorem storeEntry_absent (l : List (String × List String)) (k : String) (vs : List String)
    (hk : k ∉ l.map Prod.fst) : storeEntry l k vs = l ++ [(k, vs)] := by
  induction l with
  | nil => rfl
  | cons e rest ih =>
    obtain ⟨k0, vs0⟩ := e
    simp only [List.map_cons, List.mem_cons, not_or] at hk
    have hne : ¬ k0 = k := fun h => hk.1 h.symm
    simp [storeEntry, hne, ih hk.2]

theorem storeEntry_last (l : List (String × List String)) (k : String)
    (old vs : List String) (hk : k ∉ l.map Prod.fst) :
    storeEntry (l ++ [(k, old)]) k vs = l ++ [(k, vs)] := by
  induction l with
  | nil => simp [storeEntry]
  | cons e rest ih =>
    obtain ⟨k0, vs0⟩ := e
    simp only [List.map_cons, List.mem_cons, not_or] at hk
    have hne : ¬ k0 = k := fun h => hk.1 h.symm
    simp [storeEntry, hne, ih hk.2]

theorem lookup_last (l : List (String × List String)) (k : String) (old : List String)
    (hk : k ∉ l.map Prod.fst) : (l ++ [(k, old)]).lookup k = some old := by
  induction l with
  | nil => simp [List.lookup]
  | cons e rest ih =>
    obtain ⟨k0, vs0⟩ := e
    simp only [List.map_cons, List.mem_cons, not_or] at hk
    have hb : (k == k0) = false := by simpa using hk.1
    simp only [List.cons_append, List.lookup_cons, hb]
    exact ih hk.2

/-- Adding values under a canonical key whose entry is the last one extends that entry. -/
theorem foldl_Add_last (vs : List String) (l : List (String × List String)) (k : String)
    (old : List String) (hk : k ∉ l.map Prod.fst) (hc : CanonicalMIMEHeaderKey k = k) :
    vs.foldl (fun acc v => acc.Add k v) (Header.mk (l ++ [(k, old)])) =
      Header.mk (l ++ [(k, old ++ vs)]) := by
  induction vs generalizing old with
  | nil => simp
  | cons v rest ih =>
    have hadd : (Header.mk (l ++ [(k, old)])).Add k v = ⟨l ++ [(k, old ++ [v])]⟩ := by
      simp [Header.Add, Header.store, Header.index, Header.lookup, hc, lookup_last l k old hk,
        storeEntry_last l k old _ hk]
    simp only [List.foldl_cons, hadd, ih, List.append_assoc, List.singleton_append]

/-- Adding values under a canonical key that the map does not hold: no entry is made for
an empty list of values, else one entry is made, after the others. -/
theorem foldl_Add_absent (vs : List String) (l : List (String × List String)) (k : String)
    (hk : k ∉ l.map Prod.fst) (hc : CanonicalMIMEHeaderKey k = k) :
    vs.foldl (fun acc v => acc.Add k v) (Header.mk l) =
      if vs = [] then Header.mk l else Header.mk (l ++ [(k, vs)]) := by
  cases vs with
  | nil => simp
  | cons v rest =>
    have hadd : (Header.mk l).Add k v = ⟨l ++ [(k, [v])]⟩ := by
      simp [Header.Add, Header.store, Header.index, Header.lookup, hc,
        lookup_eq_none_of_not_mem_keys l k hk, storeEntry_absent l k _ hk]
    simp only [List.foldl_cons, hadd, foldl_Add_last rest l k [v] hk hc]
    simp

/-- The copy loop, read as a list of (key, value) pairs: the pairs of the visited entries
are put after the pairs of the destination, in the order of the visit. -/
theorem pairs_copyHeader (visit : List (String × List String))
    (hnd : (visit.map Prod.fst).Nodup)
    (hcanon : ∀ e ∈ visit, CanonicalMIMEHeaderKey e.1 = e.1) (dst : Header)
    (hdisj : ∀ e ∈ visit, e.1 ∉ dst.entries.map Prod.fst) :
    (copyHeader dst visit).pairs = dst.pairs ++ (Header.mk visit).pairs := by
  induction visit generalizing dst with
  | nil => simp [copyHeader, Header.pairs]
  | cons e rest ih =>
    obtain ⟨k0, vs0⟩ := e
    obtain ⟨l⟩ := dst
    simp only [List.map_cons, List.nodup_cons] at hnd
    have hc0 : CanonicalMIMEHeaderKey k0 = k0 := hcanon (k0, vs0) (List.mem_cons_self _ _)
    have hrest : ∀ e ∈ rest, CanonicalMIMEHeaderKey e.1 = e.1 :=
      fun e he => hcanon e (List.mem_cons_of_mem _ he)
    have hk0 : k0 ∉ l.map Prod.fst := hdisj (k0, vs0) (List.mem_cons_self _ _)
    have hstep : copyHeader ⟨l⟩ ((k0, vs0) :: rest) =
        copyHeader (vs0.foldl (fun acc v => acc.Add k0 v) ⟨l⟩) rest := by
      simp [copyHeader]
    rw [hstep, foldl_Add_absent vs0 l k0 hk0 hc0]
    by_cases hvs : vs0 = []
    · subst hvs
      rw [if_pos rfl, ih hnd.2 hrest ⟨l⟩
        (fun e he => hdisj e (List.mem_cons_of_mem _ he))]
      simp [Header.pairs]
    · rw [if_neg hvs, ih hnd.2 hrest ⟨l ++ [(k0, vs0)]⟩ ?_]
      · simp [Header.pairs]
      · intro e he
        have h1 : e.1 ∉ l.map Prod.fst := hdisj e (List.mem_cons_of_mem _ he)
        have h2 : e.1 ≠ k0 := fun h => hnd.1 (h ▸ List.mem_map_of_mem Prod.fst he)
        simpa using ⟨fun x hx => h1 (List.mem_map.mpr ⟨(e.1, x), hx, rfl⟩), h2⟩

/-! ## The three paths of `ServeHTTP` -/

/-- The handler on a host the cluster cache does not know. -/
theorem ServeHTTP_unknown (env : Env) (p : ReverseProxy) (w : ResponseWriter) (r : Request)
    (hunknown : env.GetConnectInfoForEndpoint p.clusterInfoCache r.Host = none) :
    ServeHTTP env p w r =
      { w := (w.WriteHeader 502).Write (r.Host ++ " is not a cluster endpoint"),
        newProxyCalls := [], proxy := none, forwarded := [], logs := [], panicked := false } := by
  simp [ServeHTTP, hunknown]

/-- The handler on a known host whose target URL does not parse. -/
theorem ServeHTTP_parse_error (env : Env) (p : ReverseProxy) (w : ResponseWriter) (r : Request)
    (info : ConnectInfo) (e : String)
    (hknown : env.GetConnectInfoForEndpoint p.clusterInfoCache r.Host = some info)
    (hparse : env.urlParse ("https://" ++ r.Host) = Except.error e) :
    ServeHTTP env p w r =
      { w := w, newProxyCalls := [none], proxy := none, forwarded := [], logs := [],
        panicked := true } := by
  simp [ServeHTTP, hknown, hparse, Except.toOption]

/-- The handler on a known host whose target URL parses. -/
theorem ServeHTTP_forward (env : Env) (p : ReverseProxy) (w : ResponseWriter) (r : Request)
    (info : ConnectInfo) (target : URL)
    (hknown : env.GetConnectInfoForEndpoint p.clusterInfoCache r.Host = some info)
    (hparse : env.urlParse ("https://" ++ r.Host) = Except.ok target) :
    ServeHTTP env p w r =
      { w := (({ w with
                  header := copyHeader w.header
                    (env.mapRange (recorded env r target info).HeaderMap) } :
                  ResponseWriter).WriteHeader (recorded env r target info).Code).Write
                (recorded env r target info).Body,
        newProxyCalls := [some target],
        proxy := some (newProxy target info),
        forwarded := [forwardedRequest r],
        logs := debugDump p.Debug env.quote (env.DumpRequest (forwardedRequest r)) ++
          debugDump p.Debug env.quote (env.DumpResponse (recorded env r target info)) ++
          (match env.bodyWriteError
              (({ w with
                  header := copyHeader w.header
                    (env.mapRange (recorded env r target info).HeaderMap) } :
                  ResponseWriter).WriteHeader (recorded env r target info).Code)
              (recorded env r target info).Body with
            | some e => ["error writing body, " ++ e]
            | none => []),
        panicked := false } := by
  simp [ServeHTTP, hknown, hparse, Except.toOption, recorded]

/-- The response header at the end of the forwarding path: the copy loop applied to the
header the writer came with. -/
theorem ServeHTTP_forward_header (env : Env) (p : ReverseProxy) (w : ResponseWriter)
    (r : Request) (info : ConnectInfo) (target : URL)
    (hknown : env.GetConnectInfoForEndpoint p.clusterInfoCache r.Host = some info)
    (hparse : env.urlParse ("https://" ++ r.Host) = Except.ok target) :
    (ServeHTTP env p w r).w.header =
      copyHeader w.header (env.mapRange (recorded env r target info).HeaderMap) := by
  rw [ServeHTTP_forward env p w r info target hknown hparse]
  cases hwrote : w.wroteHeader <;>
    simp [ResponseWriter.Write, ResponseWriter.WriteHeader, hwrote]

/-! ## Request handling -/

/-- C1: on a host unknown to the cluster cache, `ServeHTTP` writes status 502 and the body
`<host> is not a cluster endpoint`, and ends without building a reverse proxy, without a
backend round trip and without touching the response header. -/
theorem unknown_host_bad_gateway (env : Env) (p : ReverseProxy) (w : ResponseWriter)
    (r : Request)
    (hunknown : env.GetConnectInfoForEndpoint p.clusterInfoCache r.Host = none)
    (hw : w.wroteHeader = false) :
    (ServeHTTP env p w r).w.wroteHeader = true ∧
    (ServeHTTP env p w r).w.status = 502 ∧
    (ServeHTTP env p w r).w.body = w.body ++ (r.Host ++ " is not a cluster endpoint") ∧
    (ServeHTTP env p w r).w.header = w.header ∧
    (ServeHTTP env p w r).newProxyCalls = [] ∧
    (ServeHTTP env p w r).proxy = none ∧
    (ServeHTTP env p w r).forwarded = [] ∧
    (ServeHTTP env p w r).panicked = false := by
  rw [ServeHTTP_unknown env p w r hunknown]
  simp [ResponseWriter.Write, ResponseWriter.WriteHeader, hw]

theorem unknown_host_bad_gateway_witness :
    sampleEnv.GetConnectInfoForEndpoint sampleProxy.clusterInfoCache
        (sampleRequest "evil.example.com" Header.empty).Host = none ∧
    (ServeHTTP sampleEnv sampleProxy ResponseWriter.fresh
        (sampleRequest "evil.example.com" Header.empty)).w.status = 502 ∧
    (ServeHTTP sampleEnv sampleProxy ResponseWriter.fresh
        (sampleRequest "evil.example.com" Header.empty)).w.body =
      "evil.example.com is not a cluster endpoint" ∧
    (ServeHTTP sampleEnv sampleProxy ResponseWriter.fresh
        (sampleRequest "evil.example.com" Header.empty)).forwarded = [] :=
  have h := unknown_host_bad_gateway sampleEnv sampleProxy ResponseWriter.fresh
    (sampleRequest "evil.example.com" Header.empty) (by decide) (by decide)
  ⟨by decide, h.2.1, h.2.2.1.trans (by decide), h.2.2.2.2.2.2.1⟩

/-- C2: when the inbound header carries `X-Real-Authorization` values, the request that
`ServeHTTP` forwards has exactly those values, in their order, as its `Authorization`
values, whatever `Authorization` held before. -/
theorem real_authorization_promoted (env : Env) (p : ReverseProxy) (w : ResponseWriter)
    (r : Request) (info : ConnectInfo) (target : URL)
    (hknown : env.GetConnectInfoForEndpoint p.clusterInfoCache r.Host = some info)
    (hparse : env.urlParse ("https://" ++ r.Host) = Except.ok target)
    (hreal : r.Header.Values "X-Real-Authorization" ≠ []) :
    ∃ r1, (ServeHTTP env p w r).forwarded = [r1] ∧
      r1.Header.Values "Authorization" = r.Header.Values "X-Real-Authorization" := by
  refine ⟨forwardedRequest r, ?_, ?_⟩
  · rw [ServeHTTP_forward env p w r info target hknown hparse]
  · exact rewriteAuthorization_Values r.Header hreal

theorem real_authorization_promoted_witness :
    (∃ r1, (ServeHTTP sampleEnv sampleProxy ResponseWriter.fresh
        (sampleRequest "10.0.0.1"
          ⟨[("Authorization", ["old"]), ("X-Real-Authorization", ["v1", "v2"])]⟩)).forwarded
          = [r1] ∧
      r1.Header.Values "Authorization" = ["v1", "v2"]) :=
  real_authorization_promoted sampleEnv sampleProxy ResponseWriter.fresh
    (sampleRequest "10.0.0.1"
      ⟨[("Authorization", ["old"]), ("X-Real-Authorization", ["v1", "v2"])]⟩)
    ⟨some ⟨["cluster-ca"]⟩⟩ ⟨"https", "10.0.0.1"⟩ (by decide) (by rfl) (by decide)

/-- C3: when the inbound header carries no `X-Real-Authorization` value, the request that
`ServeHTTP` forwards has the `Authorization` entry of the inbound request: the same values,
and no entry when there was none. -/
theorem authorization_kept_without_real (env : Env) (p : ReverseProxy) (w : ResponseWriter)
    (r : Request) (info : ConnectInfo) (target : URL)
    (hknown : env.GetConnectInfoForEndpoint p.clusterInfoCache r.Host = some info)
    (hparse : env.urlParse ("https://" ++ r.Host) = Except.ok target)
    (hreal : r.Header.Values "X-Real-Authorization" = []) :
    ∃ r1, (ServeHTTP env p w r).forwarded = [r1] ∧
      r1.Header.lookup "Authorization" = r.Header.lookup "Authorization" ∧
      r1.Header.Values "Authorization" = r.Header.Values "Authorization" := by
  refine ⟨forwardedRequest r, ?_, ?_, ?_⟩
  · rw [ServeHTTP_forward env p w r info target hknown hparse]
  · simp [forwardedRequest, rewriteAuthorization_absent r.Header hreal]
  · simp [forwardedRequest, rewriteAuthorization_absent r.Header hreal]

theorem authorization_kept_without_real_witness :
    (∃ r1, (ServeHTTP sampleEnv sampleProxy ResponseWriter.fresh
        (sampleRequest "10.0.0.1" ⟨[("Authorization", ["keep"])]⟩)).forwarded = [r1] ∧
      r1.Header.lookup "Authorization" = some ["keep"] ∧
      r1.Header.Values "Authorization" = ["keep"]) :=
  authorization_kept_without_real sampleEnv sampleProxy ResponseWriter.fresh
    (sampleRequest "10.0.0.1" ⟨[("Authorization", ["keep"])]⟩)
    ⟨some ⟨["cluster-ca"]⟩⟩ ⟨"https", "10.0.0.1"⟩ (by decide) (by rfl) (by decide)

/-- C8: the header rewrite of `ServeHTTP` changes no entry but `Authorization`: under every
other key, `X-Real-Authorization` included, the forwarded request holds what the inbound
request held, values and order alike. -/
theorem other_headers_unchanged (env : Env) (p : ReverseProxy) (w : ResponseWriter)
    (r : Request) (info : ConnectInfo) (target : URL)
    (hknown : env.GetConnectInfoForEndpoint p.clusterInfoCache r.Host = some info)
    (hparse : env.urlParse ("https://" ++ r.Host) = Except.ok target) :
    ∃ r1, (ServeHTTP env p w r).forwarded = [r1] ∧
      ∀ key, key ≠ "Authorization" → r1.Header.lookup key = r.Header.lookup key := by
  refine ⟨forwardedRequest r, ?_, ?_⟩
  · rw [ServeHTTP_forward env p w r info target hknown hparse]
  · intro key hkey
    exact rewriteAuthorization_lookup_other r.Header key hkey

theorem other_headers_unchanged_witness :
    (∃ r1, (ServeHTTP sampleEnv sampleProxy ResponseWriter.fresh
        (sampleRequest "10.0.0.1"
          ⟨[("Accept", ["a", "b"]), ("X-Real-Authorization", ["v1"])]⟩)).forwarded = [r1] ∧
      ∀ key, key ≠ "Authorization" → r1.Header.lookup key =
        (⟨[("Accept", ["a", "b"]), ("X-Real-Authorization", ["v1"])]⟩ : Header).lookup key) :=
  other_headers_unchanged sampleEnv sampleProxy ResponseWriter.fresh
    (sampleRequest "10.0.0.1" ⟨[("Accept", ["a", "b"]), ("X-Real-Authorization", ["v1"])]⟩)
    ⟨some ⟨["cluster-ca"]⟩⟩ ⟨"https", "10.0.0.1"⟩ (by decide) (by rfl)

/-- C4, as stated, fails on a resolved `ConnectInfo` whose `RootCAs` is nil: the transport
built for host `10.0.0.2` then verifies the backend against the root set of the host
machine, here the one certificate `host-ca`, which the resolved set does not hold. -/
theorem nil_root_pool_trusts_host_roots :
    sampleEnv.GetConnectInfoForEndpoint sampleProxy.clusterInfoCache "10.0.0.2" =
      some ⟨none⟩ ∧
    (ServeHTTP sampleEnv sampleProxy ResponseWriter.fresh
        (sampleRequest "10.0.0.2" Header.empty)).proxy.map
      (fun px => px.Transport.TLSClientConfig.RootCAs) = some none ∧
    (ServeHTTP sampleEnv sampleProxy ResponseWriter.fresh
        (sampleRequest "10.0.0.2" Header.empty)).proxy.map
      (fun px => px.Transport.TLSClientConfig.verificationRoots ⟨["host-ca"]⟩) =
        some (some ⟨["host-ca"]⟩) := by
  decide

/-- C4, amended: the transport `ServeHTTP` builds has `RootCAs` equal to the resolved
`clusterInfo.RootCAs` and leaves certificate verification on; when the resolved pool is
not nil (an empty pool included) the backend is verified against that pool alone, whatever
the roots of the host machine; when it is nil the roots of the host machine are used. -/
theorem transport_trusts_resolved_roots (env : Env) (p : ReverseProxy) (w : ResponseWriter)
    (r : Request) (info : ConnectInfo) (target : URL)
    (hknown : env.GetConnectInfoForEndpoint p.clusterInfoCache r.Host = some info)
    (hparse : env.urlParse ("https://" ++ r.Host) = Except.ok target) :
    ∃ px, (ServeHTTP env p w r).proxy = some px ∧
      px.Transport.TLSClientConfig.RootCAs = info.RootCAs ∧
      px.Transport.TLSClientConfig.InsecureSkipVerify = false ∧
      (∀ pool hostRoots, info.RootCAs = some pool →
        px.Transport.TLSClientConfig.verificationRoots hostRoots = some pool) ∧
      (∀ hostRoots, info.RootCAs = none →
        px.Transport.TLSClientConfig.verificationRoots hostRoots = some hostRoots) := by
  refine ⟨newProxy target info, ?_, rfl, rfl, ?_, ?_⟩
  · rw [ServeHTTP_forward env p w r info target hknown hparse]
  · intro pool hostRoots hpool
    simp [newProxy, TLSConfig.verificationRoots, hpool]
  · intro hostRoots hnil
    simp [newProxy, TLSConfig.verificationRoots, hnil]

theorem transport_trusts_resolved_roots_witness :
    (∃ px, (ServeHTTP sampleEnv sampleProxy ResponseWriter.fresh
        (sampleRequest "10.0.0.1" Header.empty)).proxy = some px ∧
      px.Transport.TLSClientConfig.RootCAs = some ⟨["cluster-ca"]⟩ ∧
      px.Transport.TLSClientConfig.InsecureSkipVerify = false ∧
      (∀ pool hostRoots, (some ⟨["cluster-ca"]⟩ : Option CertPool) = some pool →
        px.Transport.TLSClientConfig.verificationRoots hostRoots = some pool) ∧
      (∀ hostRoots, (some ⟨["cluster-ca"]⟩ : Option CertPool) = none →
        px.Transport.TLSClientConfig.verificationRoots hostRoots = some hostRoots)) :=
  transport_trusts_resolved_roots sampleEnv sampleProxy ResponseWriter.fresh
    (sampleRequest "10.0.0.1" Header.empty) ⟨some ⟨["cluster-ca"]⟩⟩ ⟨"https", "10.0.0.1"⟩
    (by decide) (by rfl)

/-- C5: on the known host `%zz`, whose target URL `url.Parse` rejects, `ServeHTTP` writes no
status at all (so no 500 and no diagnostic body), calls `NewSingleHostReverseProxy` with the
nil URL and ends in a panic. -/
theorem parse_failure_not_reported :
    (sampleEnv.GetConnectInfoForEndpoint sampleProxy.clusterInfoCache "%zz").isSome = true ∧
    (sampleEnv.urlParse ("https://" ++ "%zz")).toOption = none ∧
    (ServeHTTP sampleEnv sampleProxy ResponseWriter.fresh
        (sampleRequest "%zz" Header.empty)).w = ResponseWriter.fresh ∧
    (ServeHTTP sampleEnv sampleProxy ResponseWriter.fresh
        (sampleRequest "%zz" Header.empty)).w.wroteHeader = false ∧
    (ServeHTTP sampleEnv sampleProxy ResponseWriter.fresh
        (sampleRequest "%zz" Header.empty)).newProxyCalls = [none] ∧
    (ServeHTTP sampleEnv sampleProxy ResponseWriter.fresh
        (sampleRequest "%zz" Header.empty)).panicked = true := by
  decide

/-- C7: on a known host whose target URL parses, the status code `ServeHTTP` writes to the
client is the code recorded from the backend, which does not depend on the `Debug` flag. -/
theorem status_code_relayed (env : Env) (p : ReverseProxy) (w : ResponseWriter)
    (r : Request) (info : ConnectInfo) (target : URL)
    (hknown : env.GetConnectInfoForEndpoint p.clusterInfoCache r.Host = some info)
    (hparse : env.urlParse ("https://" ++ r.Host) = Except.ok target)
    (hw : w.wroteHeader = false) :
    (ServeHTTP env p w r).w.wroteHeader = true ∧
    (ServeHTTP env p w r).w.status = (recorded env r target info).Code ∧
    (ServeHTTP env { p with Debug := !p.Debug } w r).w.status =
      (recorded env r target info).Code := by
  rw [ServeHTTP_forward env p w r info target hknown hparse,
    ServeHTTP_forward env { p with Debug := !p.Debug } w r info target hknown hparse]
  simp [ResponseWriter.Write, ResponseWriter.WriteHeader, hw]

theorem status_code_relayed_witness :
    (ServeHTTP sampleEnv sampleProxy ResponseWriter.fresh
        (sampleRequest "10.0.0.1" Header.empty)).w.wroteHeader = true ∧
    (ServeHTTP sampleEnv sampleProxy ResponseWriter.fresh
        (sampleRequest "10.0.0.1" Header.empty)).w.status = 404 ∧
    (ServeHTTP sampleEnv { sampleProxy with Debug := !sampleProxy.Debug } ResponseWriter.fresh
        (sampleRequest "10.0.0.1" Header.empty)).w.status = 404 :=
  status_code_relayed sampleEnv sampleProxy ResponseWriter.fresh
    (sampleRequest "10.0.0.1" Header.empty) ⟨some ⟨["cluster-ca"]⟩⟩ ⟨"https", "10.0.0.1"⟩
    (by decide) (by rfl) (by decide)

/-- C6, as stated, fails on the order between entries of different keys.  The backend
header holds the pairs `(K, a), (K, b), (J, c)`; a `range` loop that visits `J` before `K`
leaves the client header with the pairs `(J, c), (K, a), (K, b)`. -/
theorem relay_order_follows_map_range :
    (recorded sampleEnv (sampleRequest "10.0.0.1" Header.empty) ⟨"https", "10.0.0.1"⟩
        ⟨some ⟨["cluster-ca"]⟩⟩).HeaderMap.pairs = [("K", "a"), ("K", "b"), ("J", "c")] ∧
    sampleEnv.mapRange (recorded sampleEnv (sampleRequest "10.0.0.1" Header.empty)
        ⟨"https", "10.0.0.1"⟩ ⟨some ⟨["cluster-ca"]⟩⟩).HeaderMap =
      [("J", ["c"]), ("K", ["a", "b"])] ∧
    (ServeHTTP sampleEnv sampleProxy ResponseWriter.fresh
        (sampleRequest "10.0.0.1" Header.empty)).w.header.pairs =
      [("J", "c"), ("K", "a"), ("K", "b")] ∧
    (ServeHTTP sampleEnv sampleProxy ResponseWriter.fresh
        (sampleRequest "10.0.0.1" Header.empty)).w.header.pairs ≠
      (recorded sampleEnv (sampleRequest "10.0.0.1" Header.empty) ⟨"https", "10.0.0.1"⟩
        ⟨some ⟨["cluster-ca"]⟩⟩).HeaderMap.pairs := by
  decide

/-- C6, amended: the relay step of `ServeHTTP` gives the client the header of the buffered
response as a map.  Whatever order the `range` loop visits the map in, every key of the
client header holds the values recorded under it, duplicates included and in the recorded
order; read as a list of (key, value) pairs, the client header holds the recorded pairs,
each exactly once, in the order of the visit.  The writer comes with an empty header, and
the recorded header is a map whose keys are in canonical form, as the reverse proxy writes
them. -/
theorem headers_relayed (env : Env) (p : ReverseProxy) (w : ResponseWriter)
    (r : Request) (info : ConnectInfo) (target : URL)
    (hknown : env.GetConnectInfoForEndpoint p.clusterInfoCache r.Host = some info)
    (hparse : env.urlParse ("https://" ++ r.Host) = Except.ok target)
    (hw : w.header = Header.empty)
    (hrange : (env.mapRange (recorded env r target info).HeaderMap).Perm
      (recorded env r target info).HeaderMap.entries)
    (hmap : ((recorded env r target info).HeaderMap.entries.map Prod.fst).Nodup)
    (hcanon : ∀ e ∈ (recorded env r target info).HeaderMap.entries,
      CanonicalMIMEHeaderKey e.1 = e.1) :
    (∀ key, (ServeHTTP env p w r).w.header.index key =
      (recorded env r target info).HeaderMap.index key) ∧
    (ServeHTTP env p w r).w.header.pairs =
      (Header.mk (env.mapRange (recorded env r target info).HeaderMap)).pairs ∧
    (ServeHTTP env p w r).w.header.pairs.Perm (recorded env r target info).HeaderMap.pairs := by
  have hnd : ((env.mapRange (recorded env r target info).HeaderMap).map Prod.fst).Nodup :=
    (hrange.map Prod.fst).nodup_iff.mpr hmap
  have hcan : ∀ e ∈ env.mapRange (recorded env r target info).HeaderMap,
      CanonicalMIMEHeaderKey e.1 = e.1 := fun e he => hcanon e (hrange.mem_iff.mp he)
  have hpairs : (ServeHTTP env p w r).w.header.pairs =
      (Header.mk (env.mapRange (recorded env r target info).HeaderMap)).pairs := by
    rw [ServeHTTP_forward_header env p w r info target hknown hparse, hw,
      pairs_copyHeader _ hnd hcan Header.empty (by simp [Header.empty])]
    simp [Header.pairs, Header.empty]
  refine ⟨?_, hpairs, ?_⟩
  · intro key
    rw [ServeHTTP_forward_header env p w r info target hknown hparse, hw,
      index_copyHeader _ hnd hcan]
    simp only [Header.index, Header.lookup, Header.empty, List.lookup_nil, Option.getD_none,
      List.nil_append]
    rw [lookup_perm _ _ hrange hmap]
  · rw [hpairs]
    exact List.Perm.flatMap_right _ hrange

theorem headers_relayed_witness :
    (∀ key, (ServeHTTP sampleEnv sampleProxy ResponseWriter.fresh
        (sampleRequest "10.0.0.1" Header.empty)).w.header.index key =
      (Header.mk [("K", ["a", "b"]), ("J", ["c"])]).index key) ∧
    (ServeHTTP sampleEnv sampleProxy ResponseWriter.fresh
        (sampleRequest "10.0.0.1" Header.empty)).w.header.pairs =
      (Header.mk [("J", ["c"]), ("K", ["a", "b"])]).pairs ∧
    (ServeHTTP sampleEnv sampleProxy ResponseWriter.fresh
        (sampleRequest "10.0.0.1" Header.empty)).w.header.pairs.Perm
      (Header.mk [("K", ["a", "b"]), ("J", ["c"])]).pairs :=
  headers_relayed sampleEnv sampleProxy ResponseWriter.fresh
    (sampleRequest "10.0.0.1" Header.empty) ⟨some ⟨["cluster-ca"]⟩⟩ ⟨"https", "10.0.0.1"⟩
    (by decide) (by rfl) (by rfl) (List.reverse_perm _) (by decide) (by decide)

/-! ## Start-up -/

/-- The result of `retrieveClusterInfo` when credentials are found. -/
theorem retrieveClusterInfo_found (env : BootEnv) (p : ReverseProxy) (credentials : Credentials)
    (hfound : env.FindDefaultCredentials readOnlyScope = Except.ok credentials) :
    retrieveClusterInfo env p =
      if (if p.ProjectID = "" then credentials.ProjectID else p.ProjectID) = "" then
        { p := { p with ProjectID := credentials.ProjectID }, err := some missingProjectError,
          newCacheCalls := [] }
      else
        { p := { p with
                  ProjectID := if p.ProjectID = "" then credentials.ProjectID else p.ProjectID,
                  clusterInfoCache :=
                    (env.NewCache (if p.ProjectID = "" then credentials.ProjectID
                      else p.ProjectID) credentials refreshPeriod).1 },
          err := (env.NewCache (if p.ProjectID = "" then credentials.ProjectID
                      else p.ProjectID) credentials refreshPeriod).2,
          newCacheCalls := [(if p.ProjectID = "" then credentials.ProjectID else p.ProjectID,
            credentials, refreshPeriod)] } := by
  by_cases hp : p.ProjectID = "" <;> by_cases hc : credentials.ProjectID = "" <;>
    simp [retrieveClusterInfo, hfound, hp, hc]

/-- C9: with credentials found, `retrieveClusterInfo` keeps a configured project ID, takes
the project ID of the credentials when none is configured, and returns the missing-project
error without a call of `clusterinfo.NewCache` exactly when both are empty; in every other
case the cache is made, once, for the resolved project ID. -/
theorem project_id_resolution (env : BootEnv) (p : ReverseProxy) (credentials : Credentials)
    (hfound : env.FindDefaultCredentials readOnlyScope = Except.ok credentials) :
    (p.ProjectID ≠ "" → (retrieveClusterInfo env p).p.ProjectID = p.ProjectID) ∧
    (p.ProjectID = "" → (retrieveClusterInfo env p).p.ProjectID = credentials.ProjectID) ∧
    (((retrieveClusterInfo env p).err = some missingProjectError ∧
        (retrieveClusterInfo env p).newCacheCalls = []) ↔
      (p.ProjectID = "" ∧ credentials.ProjectID = "")) ∧
    (¬ (p.ProjectID = "" ∧ credentials.ProjectID = "") →
      (retrieveClusterInfo env p).newCacheCalls =
        [((retrieveClusterInfo env p).p.ProjectID, credentials, refreshPeriod)]) := by
  rw [retrieveClusterInfo_found env p credentials hfound]
  by_cases hp : p.ProjectID = "" <;> by_cases hc : credentials.ProjectID = "" <;>
    simp [hp, hc]

theorem project_id_resolution_witness :
    (unconfiguredProxy.ProjectID ≠ "" →
      (retrieveClusterInfo sampleBoot unconfiguredProxy).p.ProjectID =
        unconfiguredProxy.ProjectID) ∧
    (unconfiguredProxy.ProjectID = "" →
      (retrieveClusterInfo sampleBoot unconfiguredProxy).p.ProjectID =
        "credentials-project") ∧
    (((retrieveClusterInfo sampleBoot unconfiguredProxy).err = some missingProjectError ∧
        (retrieveClusterInfo sampleBoot unconfiguredProxy).newCacheCalls = []) ↔
      (unconfiguredProxy.ProjectID = "" ∧
        (Credentials.mk "credentials-project").ProjectID = "")) ∧
    (¬ (unconfiguredProxy.ProjectID = "" ∧
        (Credentials.mk "credentials-project").ProjectID = "") →
      (retrieveClusterInfo sampleBoot unconfiguredProxy).newCacheCalls =
        [((retrieveClusterInfo sampleBoot unconfiguredProxy).p.ProjectID,
          Credentials.mk "credentials-project", refreshPeriod)]) :=
  project_id_resolution sampleBoot unconfiguredProxy ⟨"credentials-project"⟩ (by rfl)

/-- The steps of `Run` when `retrieveClusterInfo` returns an error. -/
theorem Run_of_boot_error (env : BootEnv) (p : ReverseProxy) (e : String)
    (herr : (retrieveClusterInfo env p).err = some e) :
    (Run env p).2 = [RunEvent.fatal ("failed to retrieve cluster information, " ++ e)] := by
  simp [Run, herr]

/-- C10: `Run` reaches the serving state only after `retrieveClusterInfo` has returned
without error.  When the credential lookup fails, when no project ID can be resolved, or
when the cache cannot be made, the only step of `Run` is the fatal log: the handler is not
registered, the listener is not opened, and the lifecycle goes from `Uninitialized`
straight to `Terminated`. -/
theorem serving_requires_cluster_info (env : BootEnv) (p : ReverseProxy) :
    (∀ e, env.FindDefaultCredentials readOnlyScope = Except.error e →
      (retrieveClusterInfo env p).err = some e) ∧
    (∀ credentials, env.FindDefaultCredentials readOnlyScope = Except.ok credentials →
      p.ProjectID = "" → credentials.ProjectID = "" →
      (retrieveClusterInfo env p).err = some missingProjectError) ∧
    (∀ credentials e, env.FindDefaultCredentials readOnlyScope = Except.ok credentials →
      (retrieveClusterInfo env p).newCacheCalls ≠ [] →
      (env.NewCache (retrieveClusterInfo env p).p.ProjectID credentials refreshPeriod).2 =
        some e →
      (retrieveClusterInfo env p).err = some e) ∧
    (∀ e, (retrieveClusterInfo env p).err = some e →
      (Run env p).2 = [RunEvent.fatal ("failed to retrieve cluster information, " ++ e)] ∧
      (∀ pattern, RunEvent.handle pattern ∉ (Run env p).2) ∧
      (∀ addr certFile keyFile,
        RunEvent.listenAndServeTLS addr certFile keyFile ∉ (Run env p).2) ∧
      lifecycle env p = [Lifecycle.Uninitialized, Lifecycle.Terminated]) ∧
    (Lifecycle.Serving ∈ lifecycle env p → (retrieveClusterInfo env p).err = none) := by
  refine ⟨?_, ?_, ?_, ?_, ?_⟩
  · intro e he
    simp [retrieveClusterInfo, he]
  · intro credentials hfound hp hc
    rw [retrieveClusterInfo_found env p credentials hfound]
    simp [hp, hc]
  · intro credentials e hfound
    rw [retrieveClusterInfo_found env p credentials hfound]
    by_cases hp : p.ProjectID = "" <;> by_cases hc : credentials.ProjectID = "" <;>
      simp [hp, hc]
  · intro e herr
    have hrun := Run_of_boot_error env p e herr
    refine ⟨hrun, ?_, ?_, ?_⟩
    · intro pattern
      simp [hrun]
    · intro addr certFile keyFile
      simp [hrun]
    · simp [lifecycle, hrun, RunEvent.state]
  · intro hserving
    cases herr : (retrieveClusterInfo env p).err with
    | none => rfl
    | some e =>
      have hrun := Run_of_boot_error env p e herr
      simp [lifecycle, hrun, RunEvent.state] at hserving

theorem serving_requires_cluster_info_witness :
    (Run failingBoot unconfiguredProxy).2 =
      [RunEvent.fatal
        ("failed to retrieve cluster information, " ++ "could not find default credentials")] ∧
    lifecycle failingBoot unconfiguredProxy = [Lifecycle.Uninitialized, Lifecycle.Terminated] :=
  have h := (serving_requires_cluster_info failingBoot unconfiguredProxy).2.2.2.1
    "could not find default credentials"
    ((serving_requires_cluster_info failingBoot unconfiguredProxy).1
      "could not find default credentials" (by rfl))
  ⟨h.1, h.2.2.2⟩

end GkeServer
